import Mathlib

/-!
Shallow embedding of `job_board/models.py` (tramcar job board data layer).

Timestamps are modelled as `Nat`; a nullable `DateTimeField` is `Option Nat`.
Foreign keys that the verified logic dereferences (`Job.site`, `Job.country`)
are embedded as the referenced object; other foreign keys are opaque `Nat` ids.
The database visible to the verified logic is a `World` holding the list of
persisted `SiteConfig` rows; `save` calls and outgoing mail are recorded as an
event trace so that ordering and multiplicity of effects can be stated.
-/

namespace JobBoard

/-- Country model: a globally unique name (`models.py`, class Country). -/
structure Country where
  name : String
deriving DecidableEq, Repr

/-- Site, the external tenant identity from `django.contrib.sites`:
a primary key, a domain and a display name. -/
structure Site where
  id : Nat
  domain : String
  name : String
deriving DecidableEq, Repr

/-- SiteConfig model (`models.py`, class SiteConfig): expiration window,
admin contact email, and the owning site's key. -/
structure SiteConfig where
  expire_after : Int
  admin_email : String
  site : Nat
deriving DecidableEq, Repr

/-- Default of the `expire_after` field (`models.SmallIntegerField(default=30)`). -/
def SiteConfig.default_expire_after : Int := 30

/-- Job model (`models.py`, class Job).  Fields kept in declaration order of
the source; `category`, `company` and `user` are opaque foreign keys. -/
structure Job where
  created_at : Nat
  title : String
  description : String
  application_info : String
  location : String
  email : String
  category : Nat
  country : Option Country
  company : Nat
  paid_at : Option Nat
  expired_at : Option Nat
  site : Site
  user : Nat
deriving DecidableEq, Repr

/-- An outbound email as handed to `django.core.mail.send_mail`. -/
structure Email where
  subject : String
  body : String
  from_email : String
  recipient_list : List String
deriving DecidableEq, Repr

/-- Persisted database state visible to the verified logic: the SiteConfig
table, in primary-key order (new rows are appended). -/
structure World where
  siteConfigs : List SiteConfig
deriving DecidableEq, Repr

/-- An observable side effect: a `save()` of a job (with the state persisted)
or a `send_mail` call. -/
inductive Ev where
  | save : Job → Ev
  | mail : Email → Ev
deriving DecidableEq, Repr

/-- Projection keeping only the mail events of a trace. -/
def mailOf : Ev → Option Email
  | .mail e => some e
  | .save _ => none

/-- Django's `send_mail` delivery behaviour: `deliveryOk` says whether the
backend delivers; with `fail_silently` a delivery failure is swallowed,
otherwise it raises (`Except.error`). -/
def send_mail (fail_silently deliveryOk : Bool) : Except Unit Unit :=
  if deliveryOk then .ok () else if fail_silently then .ok () else .error ()

/-- Modelled from the spec: the template file `job_board/emails/expired.txt`
referenced by `render_to_string` is not under `src/`; the spec says only that
the body is rendered from a template parameterized by the job (context
`{'job': self}`). -/
def render_to_string_expired (job : Job) : String :=
  "Your " ++ job.title ++ " job has expired."

/-- The related-set query `site.siteconfig_set`: all SiteConfig rows whose
foreign key is this site, in table order. -/
def World.siteconfig_set (w : World) (s : Site) : List SiteConfig :=
  w.siteConfigs.filter (fun c => c.site == s.id)

/-- Result of `Job.activate`: the in-memory job afterwards, the effect trace,
and the returned boolean. -/
structure ActivateResult where
  job : Job
  trace : List Ev
  ret : Bool
deriving DecidableEq, Repr

/-- Embedding of `Job.activate` (`models.py` lines 135-141): if `paid_at` is
unset, set it to the current time, save, return True; otherwise return False. -/
def Job.activate (j : Job) (now : Nat) : ActivateResult :=
  if j.paid_at = none then
    let j2 := { j with paid_at := some now }
    ⟨j2, [.save j2], true⟩
  else
    ⟨j, [], false⟩

/-- Outcome of `Job.expire`: a returned boolean, an uncaught `AttributeError`
(dereferencing `sc.admin_email` when the site has no SiteConfig), or an
uncaught mail-backend error (unreachable because `fail_silently=True`). -/
inductive ExpireOutcome where
  | ret : Bool → ExpireOutcome
  | attributeError : ExpireOutcome
  | mailError : ExpireOutcome
deriving DecidableEq, Repr

/-- Result of `Job.expire`: the in-memory job afterwards, the effect trace in
execution order, and the outcome. -/
structure ExpireResult where
  job : Job
  trace : List Ev
  outcome : ExpireOutcome
deriving DecidableEq, Repr

/-- Embedding of `Job.expire` (`models.py` lines 143-158).  Guard: `paid_at`
set and `expired_at` unset.  Then: read `self.site.siteconfig_set.first()`,
set `expired_at` to the current time, save, and call `send_mail` with the
site-name subject, the rendered template body, the config's admin email as
sender, the job's contact email as sole recipient, and `fail_silently=True`.
When the site has no SiteConfig, `first()` returns `None` and building the
`send_mail` arguments dereferences `None.admin_email`: an `AttributeError`
raised after the save. -/
def Job.expire (j : Job) (w : World) (now : Nat) (deliveryOk : Bool) : ExpireResult :=
  if j.paid_at ≠ none ∧ j.expired_at = none then
    let sc := (w.siteconfig_set j.site).head?
    let j2 := { j with expired_at := some now }
    match sc with
    | none => ⟨j2, [.save j2], .attributeError⟩
    | some c =>
      let e : Email :=
        ⟨"Your " ++ j.site.name ++ " job has expired",
         render_to_string_expired j2, c.admin_email, [j.email]⟩
      match send_mail true deliveryOk with
      | .ok _ => ⟨j2, [.save j2, .mail e], .ret true⟩
      | .error _ => ⟨j2, [.save j2, .mail e], .mailError⟩
  else
    ⟨j, [], .ret false⟩

/-- Embedding of `Job.format_country` (`models.py` lines 160-167): the
country's name when set, else "Anywhere*" when the free-text location is
truthy (non-empty), else "Anywhere". -/
def Job.format_country (j : Job) : String :=
  match j.country with
  | some c => c.name
  | none => if j.location ≠ "" then "Anywhere*" else "Anywhere"

/-- Django's `SiteConfig.objects.get_or_create(site=.., admin_email=..)`:
look up a row matching BOTH keyword arguments; if found return it, else
create one with the remaining fields at their defaults.  Returns the new
world, the row, and the created flag. -/
def World.siteconfig_get_or_create (w : World) (siteId : Nat) (adminEmail : String) :
    World × SiteConfig × Bool :=
  match (w.siteConfigs.filter
          (fun c => c.site == siteId && c.admin_email == adminEmail)).head? with
  | some c => (w, c, false)
  | none =>
    let c : SiteConfig := ⟨SiteConfig.default_expire_after, adminEmail, siteId⟩
    (⟨w.siteConfigs ++ [c]⟩, c, true)

/-- Embedding of the `post_save` receiver `generate_site_config`
(`models.py` lines 17-24): `created` is `kwargs.get('created', True)`
(absent kwarg defaults to True); when truthy, `get_or_create` a SiteConfig
for the instance's site with `admin_email = 'admin@' + site.domain`. -/
def generate_site_config (w : World) (created : Option Bool) (site : Site) : World :=
  if created.getD true then
    (w.siteconfig_get_or_create site.id ("admin@" ++ site.domain)).1
  else
    w

/-- Lifecycle phase of a job as described by the spec's state machine. -/
inductive Phase where
  | unpaid
  | paid
  | expired
deriving DecidableEq, Repr

/-- Phase of a job from its two nullable timestamps. -/
def Job.phase (j : Job) : Phase :=
  match j.paid_at, j.expired_at with
  | none, _ => .unpaid
  | some _, none => .paid
  | some _, some _ => .expired

/-- The transitions admitted by the linear chain Unpaid → Paid → Expired:
stay put, or advance one step along the chain. -/
def stepOk (a b : Phase) : Prop :=
  a = b ∨ (a = .unpaid ∧ b = .paid) ∨ (a = .paid ∧ b = .expired)

instance (a b : Phase) : Decidable (stepOk a b) := by
  unfold stepOk; infer_instance

/-- Jobs reachable from a freshly created job (both timestamps null) by any
sequence of `activate` and `expire` calls under any world, time and mail
backend behaviour. -/
inductive Reachable : Job → Prop
  | init (j : Job) : j.paid_at = none → j.expired_at = none → Reachable j
  | step_activate (j : Job) (now : Nat) :
      Reachable j → Reachable (j.activate now).job
  | step_expire (j : Job) (w : World) (now : Nat) (d : Bool) :
      Reachable j → Reachable (j.expire w now d).job

/-! Helper lemmas shared by the claim theorems. -/

/-- With `fail_silently = true`, `send_mail` never raises. -/
theorem send_mail_silent (d : Bool) : send_mail true d = .ok () := by
  cases d <;> rfl

/-- The in-memory job after `activate`, independent of the branch taken. -/
theorem activate_job_eq (j : Job) (now : Nat) :
    (j.activate now).job = if j.paid_at = none then { j with paid_at := some now } else j := by
  unfold Job.activate
  split <;> rfl

/-- The in-memory job after `expire`, independent of the mail branches. -/
theorem expire_job_eq (j : Job) (w : World) (now : Nat) (d : Bool) :
    (j.expire w now d).job =
      if j.paid_at ≠ none ∧ j.expired_at = none then { j with expired_at := some now } else j := by
  unfold Job.expire
  split
  · cases (w.siteconfig_set j.site).head? with
    | none => rfl
    | some c => cases h : send_mail true d with
      | ok u => simp [h]
      | error u => simp [h]
  · rfl

/-- Every reachable job satisfies the spec invariant: `expired_at` is never
set while `paid_at` is unset. -/
theorem reachable_inv (j : Job) (h : Reachable j) :
    j.paid_at = none → j.expired_at = none := by
  induction h with
  | init j h1 h2 => exact fun _ => h2
  | step_activate j now hr ih =>
    rw [activate_job_eq]
    split
    · intro hc; simp at hc
    · exact ih
  | step_expire j w now d hr ih =>
    rw [expire_job_eq]
    split
    · intro hc
      rename_i hg
      exact absurd hc hg.1
    · exact ih

/-- Concrete fixture: a freshly created, unpaid job. -/
def jobA : Job :=
  { created_at := 0, title := "Dev", description := "desc", application_info := "apply",
    location := "", email := "dev@example.org", category := 1, country := none,
    company := 1, paid_at := none, expired_at := none,
    site := ⟨1, "jobs.example.org", "Example Jobs"⟩, user := 1 }

/-- Concrete fixture: `jobA` after payment, not yet expired. -/
def jobB : Job := { jobA with paid_at := some 10 }

/-- Concrete fixture: a world whose SiteConfig table holds exactly the config
of `jobA`'s site. -/
def worldA : World := ⟨[⟨30, "admin@jobs.example.org", 1⟩]⟩

/-! Claim theorems. -/

/-- C2: for every Job with `paid_at` unset, `activate()` sets `paid_at` to the
current (non-null) time, persists the entity, and returns true; for every Job
with `paid_at` already set, `activate()` returns false and leaves the job
unchanged (in particular `paid_at` unchanged), raising no error. -/
theorem activate_spec (j : Job) (now : Nat) :
    (j.paid_at = none →
      (j.activate now).job.paid_at = some now ∧
      (j.activate now).trace = [.save (j.activate now).job] ∧
      (j.activate now).ret = true) ∧
    (j.paid_at ≠ none →
      (j.activate now).ret = false ∧ (j.activate now).job = j ∧
      (j.activate now).trace = []) := by
  constructor
  · intro h
    simp [Job.activate, h]
  · intro h
    simp [Job.activate, h]

/-- Witness for C2 at the concrete fixtures `jobA` (unpaid) and `jobB` (paid). -/
theorem activate_spec_witness :
    ((jobA.activate 5).job.paid_at = some 5 ∧ (jobA.activate 5).ret = true) ∧
    ((jobB.activate 7).ret = false ∧ (jobB.activate 7).job = jobB) := by
  refine ⟨?_, ?_⟩
  · have h := (activate_spec jobA 5).1 rfl
    exact ⟨h.1, h.2.2⟩
  · have h := (activate_spec jobB 7).2 (by simp [jobB, jobA])
    exact ⟨h.1, h.2.1⟩

/-- C7: `format_country()` is a function of the job's current state alone and
returns, in priority order: the country's name when a country is set;
otherwise "Anywhere*" when the free-text location is non-empty; otherwise
"Anywhere". -/
theorem format_country_spec (j : Job) :
    (∀ c, j.country = some c → j.format_country = c.name) ∧
    (j.country = none → j.location ≠ "" → j.format_country = "Anywhere*") ∧
    (j.country = none → j.location = "" → j.format_country = "Anywhere") := by
  refine ⟨?_, ?_, ?_⟩
  · intro c hc
    simp [Job.format_country, hc]
  · intro hc hl
    simp [Job.format_country, hc, hl]
  · intro hc hl
    simp [Job.format_country, hc, hl]

/-- Witness for C7 at the spec's three examples: France, a location-only job,
and a fully unconstrained job. -/
theorem format_country_spec_witness :
    ({ jobA with country := some ⟨"France"⟩ } : Job).format_country = "France" ∧
    ({ jobA with location := "EU timezone" } : Job).format_country = "Anywhere*" ∧
    jobA.format_country = "Anywhere" := by
  refine ⟨?_, ?_, ?_⟩
  · exact (format_country_spec { jobA with country := some ⟨"France"⟩ }).1 ⟨"France"⟩ rfl
  · exact (format_country_spec { jobA with location := "EU timezone" }).2.1 rfl (by decide)
  · exact (format_country_spec jobA).2.2 rfl rfl

/-- Concrete fixture: an empty SiteConfig table. -/
def worldEmpty : World := ⟨[]⟩

/-- C1: for every Job with `paid_at` set and `expired_at` unset whose site's
SiteConfig lookup (`siteconfig_set.first()`) yields a config, `expire()` sets
`expired_at` to the current time, persists the job, then sends exactly one
notification email to the job's contact address with that config's admin
email as sender — in that order — and returns true. -/
theorem expire_spec (j : Job) (w : World) (now : Nat) (d : Bool) (c : SiteConfig)
    (hp : j.paid_at ≠ none) (he : j.expired_at = none)
    (hc : (w.siteconfig_set j.site).head? = some c) :
    (j.expire w now d).job = { j with expired_at := some now } ∧
    (j.expire w now d).trace =
      [.save { j with expired_at := some now },
       .mail ⟨"Your " ++ j.site.name ++ " job has expired",
              render_to_string_expired { j with expired_at := some now },
              c.admin_email, [j.email]⟩] ∧
    (j.expire w now d).outcome = .ret true := by
  unfold Job.expire
  rw [if_pos ⟨hp, he⟩]
  simp only [hc, send_mail_silent]
  exact ⟨trivial, trivial, trivial⟩

/-- Witness for C1: the paid fixture `jobB` expiring at time 20 in `worldA`. -/
theorem expire_spec_witness :
    (jobB.expire worldA 20 true).job = { jobB with expired_at := some 20 } ∧
    (jobB.expire worldA 20 true).trace =
      [.save { jobB with expired_at := some 20 },
       .mail ⟨"Your Example Jobs job has expired",
              render_to_string_expired { jobB with expired_at := some 20 },
              "admin@jobs.example.org", ["dev@example.org"]⟩] ∧
    (jobB.expire worldA 20 true).outcome = .ret true := by
  have h := expire_spec jobB worldA 20 true ⟨30, "admin@jobs.example.org", 1⟩
    (by simp [jobB, jobA]) rfl rfl
  exact h

/-- C3: `expire()` on a Job with `paid_at` unset returns false, leaves
`paid_at` null and `expired_at` unchanged (so both stay null), performs no
save and sends no notification; on a Job with `expired_at` already set it
returns false, changes nothing and sends no further notification. -/
theorem expire_noop_spec (j : Job) (w : World) (now : Nat) (d : Bool) :
    (j.paid_at = none →
      (j.expire w now d).outcome = .ret false ∧
      (j.expire w now d).job.paid_at = none ∧
      (j.expire w now d).job.expired_at = j.expired_at ∧
      (j.expire w now d).job = j ∧
      (j.expire w now d).trace = []) ∧
    (j.expired_at ≠ none →
      (j.expire w now d).outcome = .ret false ∧
      (j.expire w now d).job = j ∧
      (j.expire w now d).trace = []) := by
  constructor
  · intro h
    have hng : ¬(j.paid_at ≠ none ∧ j.expired_at = none) := fun hx => hx.1 h
    unfold Job.expire
    rw [if_neg hng]
    exact ⟨rfl, h, rfl, rfl, rfl⟩
  · intro h
    have hng : ¬(j.paid_at ≠ none ∧ j.expired_at = none) := fun hx => h hx.2
    unfold Job.expire
    rw [if_neg hng]
    exact ⟨rfl, rfl, rfl⟩

/-- Witness for C3: the unpaid fixture `jobA`, and an already-expired job. -/
theorem expire_noop_spec_witness :
    ((jobA.expire worldA 20 true).outcome = .ret false ∧
     (jobA.expire worldA 20 true).job = jobA ∧
     (jobA.expire worldA 20 true).trace = []) ∧
    ((({ jobB with expired_at := some 15 } : Job).expire worldA 20 true).outcome
        = .ret false ∧
     (({ jobB with expired_at := some 15 } : Job).expire worldA 20 true).trace = []) := by
  refine ⟨?_, ?_⟩
  · have h := (expire_noop_spec jobA worldA 20 true).1 rfl
    exact ⟨h.1, h.2.2.2.1, h.2.2.2.2⟩
  · have h := (expire_noop_spec { jobB with expired_at := some 15 } worldA 20 true).2
      (by simp)
    exact ⟨h.1, h.2.2⟩

/-- C8: under the C1 precondition, the single notification sent by `expire()`
has subject "Your {site name} job has expired" with the job's site name
interpolated, a body rendered from the template parameterized by the job,
the first SiteConfig's admin email as sender, and the job's contact email as
the sole recipient; and for every delivery behaviour of the mail backend
(`d` arbitrary) no error reaches the caller — `expire` still returns true. -/
theorem expire_email_spec (j : Job) (w : World) (now : Nat) (d : Bool) (c : SiteConfig)
    (hp : j.paid_at ≠ none) (he : j.expired_at = none)
    (hc : (w.siteconfig_set j.site).head? = some c) :
    (j.expire w now d).trace.filterMap mailOf =
      [⟨"Your " ++ j.site.name ++ " job has expired",
        render_to_string_expired { j with expired_at := some now },
        c.admin_email, [j.email]⟩] ∧
    (j.expire w now d).outcome = .ret true ∧
    (j.expire w now d).outcome ≠ .mailError := by
  unfold Job.expire
  rw [if_pos ⟨hp, he⟩]
  simp only [hc, send_mail_silent]
  simp [mailOf]

/-- Witness for C8: `jobB` expiring in `worldA` with a failing mail backend
(`deliveryOk = false`) — the failure is suppressed and true is returned. -/
theorem expire_email_spec_witness :
    (jobB.expire worldA 20 false).trace.filterMap mailOf =
      [⟨"Your Example Jobs job has expired",
        render_to_string_expired { jobB with expired_at := some 20 },
        "admin@jobs.example.org", ["dev@example.org"]⟩] ∧
    (jobB.expire worldA 20 false).outcome = .ret true := by
  have h := expire_email_spec jobB worldA 20 false ⟨30, "admin@jobs.example.org", 1⟩
    (by simp [jobB, jobA]) rfl rfl
  exact ⟨h.1, h.2.1⟩

/-- C9: for every Job with `paid_at` set and `expired_at` unset whose site
has no SiteConfig, `expire()` ends in an uncaught AttributeError (building
the notification dereferences the absent config) rather than returning a
boolean, no mail is sent, and `expired_at` has already been set and persisted
before the error: the save event is in the trace. -/
theorem expire_no_config_spec (j : Job) (w : World) (now : Nat) (d : Bool)
    (hp : j.paid_at ≠ none) (he : j.expired_at = none)
    (hc : (w.siteconfig_set j.site).head? = none) :
    (j.expire w now d).outcome = .attributeError ∧
    (∀ b, (j.expire w now d).outcome ≠ .ret b) ∧
    (j.expire w now d).job.expired_at = some now ∧
    (j.expire w now d).trace = [.save { j with expired_at := some now }] ∧
    (j.expire w now d).trace.filterMap mailOf = [] := by
  unfold Job.expire
  rw [if_pos ⟨hp, he⟩]
  simp only [hc]
  refine ⟨trivial, ?_, trivial, trivial, by simp [mailOf]⟩
  intro b hb
  cases hb

/-- Witness for C9: `jobB` expiring in a world with an empty SiteConfig
table. -/
theorem expire_no_config_spec_witness :
    (jobB.expire worldEmpty 20 true).outcome = .attributeError ∧
    (jobB.expire worldEmpty 20 true).job.expired_at = some 20 ∧
    (jobB.expire worldEmpty 20 true).trace =
      [.save { jobB with expired_at := some 20 }] := by
  have h := expire_no_config_spec jobB worldEmpty 20 true
    (by simp [jobB, jobA]) rfl rfl
  exact ⟨h.1, h.2.2.1, h.2.2.2.1⟩

/-- When the expire guard fails, `expire` is a pure no-op returning false. -/
theorem expire_noop_eq (j : Job) (w : World) (now : Nat) (d : Bool)
    (h : ¬(j.paid_at ≠ none ∧ j.expired_at = none)) :
    j.expire w now d = ⟨j, [], .ret false⟩ := by
  unfold Job.expire
  rw [if_neg h]

/-- Outcome `.ret false` identifies the failed-guard branch of `expire`. -/
theorem expire_ret_false_guard (j : Job) (w : World) (now : Nat) (d : Bool)
    (h : (j.expire w now d).outcome = .ret false) :
    ¬(j.paid_at ≠ none ∧ j.expired_at = none) := by
  intro hg
  unfold Job.expire at h
  rw [if_pos hg] at h
  cases hh : (w.siteconfig_set j.site).head? with
  | none => rw [hh] at h; simp at h
  | some c =>
    rw [hh] at h
    cases hsm : send_mail true d with
    | ok u => rw [hsm] at h; simp at h
    | error u => rw [hsm] at h; simp at h

/-- Return value `false` identifies the failed-guard branch of `activate`. -/
theorem activate_ret_false_guard (j : Job) (now : Nat)
    (h : (j.activate now).ret = false) : j.paid_at ≠ none := by
  intro hp
  unfold Job.activate at h
  rw [if_pos hp] at h
  simp at h

/-- C10: `created_at` (and every field other than `paid_at`) is unchanged by
`activate`; every field other than `expired_at` is unchanged by `expire`;
and in the false-returning no-op branches neither method modifies any field
or performs any save. -/
theorem frame_spec (j : Job) (w : World) (now : Nat) (d : Bool) :
    ((j.activate now).job.created_at = j.created_at ∧
     (j.activate now).job.title = j.title ∧
     (j.activate now).job.description = j.description ∧
     (j.activate now).job.application_info = j.application_info ∧
     (j.activate now).job.location = j.location ∧
     (j.activate now).job.email = j.email ∧
     (j.activate now).job.category = j.category ∧
     (j.activate now).job.country = j.country ∧
     (j.activate now).job.company = j.company ∧
     (j.activate now).job.expired_at = j.expired_at ∧
     (j.activate now).job.site = j.site ∧
     (j.activate now).job.user = j.user) ∧
    ((j.expire w now d).job.created_at = j.created_at ∧
     (j.expire w now d).job.title = j.title ∧
     (j.expire w now d).job.description = j.description ∧
     (j.expire w now d).job.application_info = j.application_info ∧
     (j.expire w now d).job.location = j.location ∧
     (j.expire w now d).job.email = j.email ∧
     (j.expire w now d).job.category = j.category ∧
     (j.expire w now d).job.country = j.country ∧
     (j.expire w now d).job.company = j.company ∧
     (j.expire w now d).job.paid_at = j.paid_at ∧
     (j.expire w now d).job.site = j.site ∧
     (j.expire w now d).job.user = j.user) ∧
    ((j.activate now).ret = false →
      (j.activate now).job = j ∧ (j.activate now).trace = []) ∧
    ((j.expire w now d).outcome = .ret false →
      (j.expire w now d).job = j ∧ (j.expire w now d).trace = []) := by
  refine ⟨?_, ?_, ?_, ?_⟩
  · rw [activate_job_eq]
    split <;> simp
  · rw [expire_job_eq]
    split <;> simp
  · intro h
    have hp := activate_ret_false_guard j now h
    unfold Job.activate
    rw [if_neg hp]
    exact ⟨rfl, rfl⟩
  · intro h
    have hg := expire_ret_false_guard j w now d h
    rw [expire_noop_eq j w now d hg]
    exact ⟨rfl, rfl⟩

/-- Witness for C10: the fixtures `jobA` (activation mutates only `paid_at`)
and `jobB` (second activation is a full no-op). -/
theorem frame_spec_witness :
    ((jobA.activate 5).job.created_at = jobA.created_at ∧
     (jobA.activate 5).job.title = jobA.title ∧
     (jobA.activate 5).job.expired_at = jobA.expired_at) ∧
    ((jobB.expire worldA 20 true).job.paid_at = jobB.paid_at) ∧
    ((jobB.activate 7).job = jobB ∧ (jobB.activate 7).trace = []) := by
  refine ⟨?_, ?_, ?_⟩
  · have h := (frame_spec jobA worldA 5 true).1
    exact ⟨h.1, h.2.1, h.2.2.2.2.2.2.2.2.2.1⟩
  · exact (frame_spec jobB worldA 20 true).2.1.2.2.2.2.2.2.2.2.2.1
  · exact (frame_spec jobB worldA 7 true).2.2.1 rfl

/-- C4: every job reachable from a fresh (both-timestamps-null) job by any
sequence of `activate`/`expire` calls satisfies the invariants - `expired_at`
is never set while `paid_at` is unset, `paid_at` once set is never changed by
either method, `expired_at` once set is never changed - and each call moves
the phase only along the linear chain Unpaid → Paid → Expired (stay or
advance, never backwards). -/
theorem job_lifecycle_linear (j : Job) (h : Reachable j) :
    (j.paid_at = none → j.expired_at = none) ∧
    (∀ now, (j.paid_at ≠ none → (j.activate now).job.paid_at = j.paid_at) ∧
      stepOk j.phase ((j.activate now).job).phase) ∧
    (∀ w now d, (j.expire w now d).job.paid_at = j.paid_at ∧
      (j.expired_at ≠ none → (j.expire w now d).job.expired_at = j.expired_at) ∧
      stepOk j.phase ((j.expire w now d).job).phase) := by
  have hinv := reachable_inv j h
  refine ⟨hinv, ?_, ?_⟩
  · intro now
    rw [activate_job_eq]
    by_cases hp : j.paid_at = none
    · rw [if_pos hp]
      have he := hinv hp
      refine ⟨fun hc => absurd hp hc, ?_⟩
      simp [Job.phase, hp, he, stepOk]
    · rw [if_neg hp]
      exact ⟨fun _ => rfl, Or.inl rfl⟩
  · intro w now d
    rw [expire_job_eq]
    by_cases hg : j.paid_at ≠ none ∧ j.expired_at = none
    · rw [if_pos hg]
      refine ⟨rfl, fun hc => absurd hg.2 hc, ?_⟩
      cases hp : j.paid_at with
      | none => exact absurd hp hg.1
      | some t => simp [Job.phase, hp, hg.2, stepOk]
    · rw [if_neg hg]
      exact ⟨rfl, fun _ => rfl, Or.inl rfl⟩

/-- Witness for C4: the fresh fixture `jobA`, its activation, and the
expiration of the activated job. -/
theorem job_lifecycle_linear_witness :
    (jobA.paid_at = none → jobA.expired_at = none) ∧
    stepOk jobA.phase ((jobA.activate 5).job).phase ∧
    stepOk jobB.phase ((jobB.expire worldA 20 true).job).phase := by
  have h1 := job_lifecycle_linear jobA (Reachable.init jobA rfl rfl)
  have h2 := job_lifecycle_linear jobB
    (Reachable.step_activate jobA 10 (Reachable.init jobA rfl rfl))
  exact ⟨h1.1, (h1.2.1 5).2, (h2.2.2 worldA 20 true).2.2⟩

/-- World component of `get_or_create`: append a fresh row when no row
matches both lookup fields, otherwise leave the table unchanged. -/
theorem siteconfig_get_or_create_world (w : World) (i : Nat) (e : String) :
    (w.siteconfig_get_or_create i e).1 =
      if w.siteConfigs.filter (fun c => c.site == i && c.admin_email == e) = [] then
        ⟨w.siteConfigs ++ [⟨SiteConfig.default_expire_after, e, i⟩]⟩
      else w := by
  unfold World.siteconfig_get_or_create
  cases hh : (w.siteConfigs.filter (fun c => c.site == i && c.admin_email == e)).head? with
  | none =>
    have hnil := List.head?_eq_none_iff.mp hh
    rw [if_pos hnil]
  | some c =>
    have hne : w.siteConfigs.filter (fun c => c.site == i && c.admin_email == e) ≠ [] := by
      intro hx
      rw [hx] at hh
      cases hh
    rw [if_neg hne]

/-- Applying `get_or_create` twice with the same lookup fields changes the
table at most once. -/
theorem siteconfig_get_or_create_idem (w : World) (i : Nat) (e : String) :
    ((w.siteconfig_get_or_create i e).1.siteconfig_get_or_create i e).1 =
      (w.siteconfig_get_or_create i e).1 := by
  by_cases hnil : w.siteConfigs.filter (fun c => c.site == i && c.admin_email == e) = []
  · have h1 : (w.siteconfig_get_or_create i e).1 =
        ⟨w.siteConfigs ++ [⟨SiteConfig.default_expire_after, e, i⟩]⟩ := by
      rw [siteconfig_get_or_create_world, if_pos hnil]
    have hne : (⟨w.siteConfigs ++ [⟨SiteConfig.default_expire_after, e, i⟩]⟩ :
        World).siteConfigs.filter (fun c => c.site == i && c.admin_email == e) ≠ [] := by
      have hcs : (⟨w.siteConfigs ++ [⟨SiteConfig.default_expire_after, e, i⟩]⟩ :
          World).siteConfigs = w.siteConfigs ++ [⟨SiteConfig.default_expire_after, e, i⟩] := rfl
      rw [hcs, List.filter_append, hnil]
      simp
    rw [h1, siteconfig_get_or_create_world, if_neg hne]
  · have h1 : (w.siteconfig_get_or_create i e).1 = w := by
      rw [siteconfig_get_or_create_world, if_neg hnil]
    rw [h1, h1]

/-- C5: when the hook fires for a created Site (`created = true`) that has no
SiteConfig, exactly one SiteConfig is appended, and the rows for that site
are exactly one row with `admin_email = "admin@" + domain` and `expire_after`
at its default of 30. -/
theorem generate_site_config_creates (w : World) (s : Site)
    (h : w.siteConfigs.filter (fun c => c.site == s.id) = []) :
    (generate_site_config w (some true) s).siteConfigs =
      w.siteConfigs ++ [⟨SiteConfig.default_expire_after, "admin@" ++ s.domain, s.id⟩] ∧
    (generate_site_config w (some true) s).siteConfigs.filter (fun c => c.site == s.id) =
      [⟨SiteConfig.default_expire_after, "admin@" ++ s.domain, s.id⟩] ∧
    SiteConfig.default_expire_after = 30 := by
  have hboth : w.siteConfigs.filter
      (fun c => c.site == s.id && c.admin_email == "admin@" ++ s.domain) = [] := by
    rw [List.filter_eq_nil_iff]
    intro a ha hpa
    exact (List.filter_eq_nil_iff.mp h) a ha ((Bool.and_eq_true _ _).mp hpa).1
  have hw : (generate_site_config w (some true) s).siteConfigs =
      w.siteConfigs ++ [⟨SiteConfig.default_expire_after, "admin@" ++ s.domain, s.id⟩] := by
    unfold generate_site_config
    rw [siteconfig_get_or_create_world]
    simp only [Option.getD_some, if_true, if_pos hboth]
  refine ⟨hw, ?_, rfl⟩
  rw [hw, List.filter_append, h]
  simp

/-- Concrete fixture: a new site with no SiteConfig yet. -/
def siteNew : Site := ⟨2, "new.example.org", "New"⟩

/-- Witness for C5: provisioning `siteNew` into an empty table. -/
theorem generate_site_config_creates_witness :
    (generate_site_config worldEmpty (some true) siteNew).siteConfigs.filter
        (fun c => c.site == siteNew.id) =
      [⟨30, "admin@new.example.org", 2⟩] ∧
    SiteConfig.default_expire_after = 30 := by
  have h := generate_site_config_creates worldEmpty siteNew rfl
  exact ⟨h.2.1, h.2.2⟩

/-- Concrete fixture: a site whose SiteConfig was edited by an admin. -/
def siteCex : Site := ⟨7, "cex.example.org", "Cex"⟩

/-- Concrete fixture: the SiteConfig table already holds a row for site 7,
with an admin email that differs from the derived "admin@" + domain. -/
def worldCex : World := ⟨[⟨30, "root@cex.example.org", 7⟩]⟩

/-- Counterexample to C6 as stated: `worldCex` already holds a SiteConfig for
`siteCex`, yet firing the hook adds a second SiteConfig for the same site,
because get-or-create keys on both the site and the derived admin email. -/
theorem generate_site_config_duplicate_cex :
    (worldCex.siteConfigs.filter (fun c => c.site == siteCex.id)).length = 1 ∧
    ((generate_site_config worldCex (some true) siteCex).siteConfigs.filter
        (fun c => c.site == siteCex.id)).length = 2 := by
  exact ⟨rfl, by decide⟩

/-- C6 amended: the hook performs get-or-create keyed on the site AND on the
derived admin email "admin@" + domain: when a SiteConfig row with exactly
those two fields already exists, no record is created, and the hook is
idempotent - invoking it twice for the same site yields the same table as
invoking it once. -/
theorem generate_site_config_idempotent (w : World) (created : Option Bool) (s : Site) :
    (w.siteConfigs.filter
        (fun c => c.site == s.id && c.admin_email == "admin@" ++ s.domain) ≠ [] →
      generate_site_config w created s = w) ∧
    generate_site_config (generate_site_config w created s) created s =
      generate_site_config w created s := by
  by_cases hcr : created.getD true = true
  · have hg : ∀ v : World, generate_site_config v created s =
        (v.siteconfig_get_or_create s.id ("admin@" ++ s.domain)).1 := by
      intro v
      unfold generate_site_config
      rw [hcr]
      rfl
    constructor
    · intro hne
      rw [hg, siteconfig_get_or_create_world, if_neg hne]
    · rw [hg, hg]
      exact siteconfig_get_or_create_idem w s.id ("admin@" ++ s.domain)
  · have hcr' : created.getD true = false := by
      cases hx : created.getD true
      · rfl
      · exact absurd hx hcr
    unfold generate_site_config
    rw [hcr']
    exact ⟨fun _ => rfl, rfl⟩

/-- Concrete fixture: site 7 already provisioned with its derived admin
email. -/
def worldCfgd : World := ⟨[⟨30, "admin@cex.example.org", 7⟩]⟩

/-- Witness for C6 (amended): the hook leaves `worldCfgd` unchanged and is
idempotent on it. -/
theorem generate_site_config_idempotent_witness :
    generate_site_config worldCfgd (some true) siteCex = worldCfgd ∧
    generate_site_config (generate_site_config worldCfgd (some true) siteCex)
        (some true) siteCex =
      generate_site_config worldCfgd (some true) siteCex := by
  have h := generate_site_config_idempotent worldCfgd (some true) siteCex
  exact ⟨h.1 (by decide), h.2⟩

end JobBoard
